import Mathlib

/-!
Verification of the Library Book Tracker REST API (an Express + Mongoose CRUD
service over a single `Book` collection).

The data model (`bookSchema`) and each route handler are shallowly embedded as
pure Lean functions over an explicit store of book documents.  JavaScript
request-body values are modelled by `JsValue` (so that truthiness and
`typeof` checks can be stated faithfully); the datastore is a list of `Book`
documents together with a counter supplying fresh `_id`s.  The
`createdAt`/`updatedAt` timestamps of the schema are maintained by the
datastore and are never read by any route handler, so they are omitted from
the embedding.
-/

/-- A JSON/JavaScript value as it can appear in a request-body field.
`undefined` is what destructuring yields for a key absent from the body. -/
inductive JsValue where
  | str (s : String)
  | num (n : Int)
  | bool (b : Bool)
  | null
  | undefined
deriving DecidableEq, Repr

/-- JavaScript truthiness of a body value: empty string, `0`, `false`,
`null` and `undefined` are falsy, everything else is truthy. -/
def truthy : JsValue → Bool
  | .str s => s != ""
  | .num n => n != 0
  | .bool b => b
  | .null => false
  | .undefined => false

/-- The `typeof v === "boolean"` check of the PUT handler. -/
def isBoolean : JsValue → Bool
  | .bool _ => true
  | _ => false

/-- A stored book document.  `_id` is the datastore-generated identifier;
`available` is `none` for a legacy document lacking the field (the state the
fix-availability backfill repairs). -/
structure Book where
  _id : Nat
  title : String
  author : String
  genre : String
  publicationYear : Int
  available : Option Bool
deriving DecidableEq, Repr

/-- The datastore: the book collection in natural (insertion) order and the
counter from which the next generated `_id` is drawn. -/
structure Store where
  books : List Book
  nextId : Nat
deriving DecidableEq, Repr

/-- A parsed JSON request body: an association list of fields. -/
abbrev Body := List (String × JsValue)

/-- Destructuring a field out of the request body: an absent key reads as
`undefined`. -/
def getField (body : Body) (k : String) : JsValue :=
  match body.lookup k with
  | some v => v
  | none => .undefined

/-- Leading/trailing-whitespace trim (the `trim: true` setter of the
schema), computed on the character list. -/
def jsTrim (s : String) : String :=
  ⟨((s.data.dropWhile Char.isWhitespace).reverse.dropWhile Char.isWhitespace).reverse⟩

/-- The natural number denoted by a list of decimal digits. -/
def digitsToNat (l : List Char) : Nat :=
  l.foldl (fun n c => 10 * n + (c.toNat - 48)) 0

/-- The integer denoted by a string: optional surrounding whitespace, an
optional sign, then decimal digits only (`none` otherwise). -/
def strToInt? (s : String) : Option Int :=
  let t := (jsTrim s).data
  let signRest : Int × List Char :=
    match t with
    | '-' :: cs => (-1, cs)
    | '+' :: cs => (1, cs)
    | cs => (1, cs)
  if signRest.2 ≠ [] ∧ signRest.2.all Char.isDigit then
    some (signRest.1 * digitsToNat signRest.2)
  else none

/-- Mongoose cast of a body value to a schema `String` path; the
`trim: true` setter of the schema is applied.  `null` and `undefined` do not
cast (a required path rejects them). -/
def castString : JsValue → Option String
  | .str s => some (jsTrim s)
  | .num n => some (toString n)
  | .bool b => some (toString b)
  | .null => none
  | .undefined => none

/-- Mongoose cast of a body value to the schema `Number` path
`publicationYear`: numbers pass through, numeric strings are parsed,
booleans cast to 0/1. -/
def castNumber : JsValue → Option Int
  | .num n => some n
  | .str s => strToInt? s
  | .bool b => some (if b then 1 else 0)
  | .null => none
  | .undefined => none

/-- Mongoose cast of a body value to the schema `Boolean` path
`available`. -/
def castBool : JsValue → Option Bool
  | .bool b => some b
  | .num 0 => some false
  | .num 1 => some true
  | .str "true" => some true
  | .str "false" => some false
  | .str "0" => some false
  | .str "1" => some true
  | _ => none

/-- `Book.create` as invoked by the POST /books handler: destructure the five
expected fields, cast each against `bookSchema`, apply the
`default: true` of `available` when the field is omitted, and enforce the
`required` validators (a required `String` path rejects a missing value and
the empty string; a required `Number` path rejects a missing value).
`none` is a datastore cast/validation error. -/
def createBook (body : Body) (s : Store) : Option (Store × Book) :=
  (castString (getField body "title")).bind fun title =>
  (castString (getField body "author")).bind fun author =>
  (castString (getField body "genre")).bind fun genre =>
  (castNumber (getField body "publicationYear")).bind fun publicationYear =>
  if title = "" ∨ author = "" ∨ genre = "" then none
  else
    (match getField body "available" with
      | .undefined => some true
      | v => castBool v).bind fun available =>
      let b : Book := ⟨s.nextId, title, author, genre, publicationYear, some available⟩
      some ({ books := s.books ++ [b], nextId := s.nextId + 1 }, b)

/-- The JSON body of a POST /books response. -/
inductive PostResponse where
  | created (message : String) (book : Book)
  | serverError (error : String)
deriving DecidableEq, Repr

/-- The POST /books route: 201 with the stored record on success, 500 with a
generic error body on a datastore error (the store is then unchanged). -/
def postBooks (body : Body) (s : Store) : Nat × Store × PostResponse :=
  match createBook body s with
  | some (s', b) => (201, s', .created "New book added" b)
  | none => (500, s, .serverError "Error adding book")

/-- The JSON body of a GET /books/title/:title response. -/
inductive TitleResponse where
  | found (book : Book)
  | notFoundMsg (message : String)
deriving DecidableEq, Repr

/-- The GET /books/title/:title route: `Book.findOne({ title })` returns the
first document whose title matches exactly; 404 with a message body when
there is none. -/
def getBookByTitle (title : String) (s : Store) : Nat × TitleResponse :=
  match s.books.find? (fun b => b.title == title) with
  | some b => (200, .found b)
  | none => (404, .notFoundMsg "Book not found")

/-- The datastore acknowledgment of an update operation. -/
structure UpdateResult where
  acknowledged : Bool
  matchedCount : Nat
  modifiedCount : Nat
deriving DecidableEq, Repr

/-- The conditional `$set` entry `...(genre && { genre })` of the PUT
handler, applied to the matched document (with the schema cast). -/
def setGenre (v : JsValue) (b : Book) : Option Book :=
  if truthy v then (castString v).map (fun g => { b with genre := g }) else some b

/-- The conditional `$set` entry
`...(typeof available === "boolean" && { available })`: applied exactly when
the supplied value has type boolean, so `false` is applied too. -/
def setAvailable (v : JsValue) (b : Book) : Book :=
  match v with
  | .bool x => { b with available := some x }
  | _ => b

/-- The conditional `$set` entry `...(publicationYear && { publicationYear })`. -/
def setPublicationYear (v : JsValue) (b : Book) : Option Book :=
  if truthy v then (castNumber v).map (fun y => { b with publicationYear := y }) else some b

/-- The conditional `$set` entry `...(title && { title })`. -/
def setTitle (v : JsValue) (b : Book) : Option Book :=
  if truthy v then (castString v).map (fun t => { b with title := t }) else some b

/-- The conditional `$set` entry `...(author && { author })`. -/
def setAuthor (v : JsValue) (b : Book) : Option Book :=
  if truthy v then (castString v).map (fun a => { b with author := a }) else some b

/-- The whole `$set` document of the PUT handler applied to the matched
document, each field written exactly under the guard its spread gives it
(spread order as in the source). -/
def buildSet (genre available publicationYear title author : JsValue) (b : Book) :
    Option Book :=
  ((((setGenre genre b).map (setAvailable available)).bind
      (setPublicationYear publicationYear)).bind
    (setTitle title)).bind (setAuthor author)

/-- Replace the first document with the given `_id` (`updateOne` touches at
most one document). -/
def replaceFirst (id : Nat) (b' : Book) : List Book → List Book
  | [] => []
  | x :: xs => if x._id == id then b' :: xs else x :: replaceFirst id b' xs

/-- The PUT /books/:id handler body: destructure the five fields from the
request body and `Book.updateOne({_id: id}, {$set: ...})` with the
conditionally-spread `$set`.  `none` is a datastore cast error (surfaced as
HTTP 500 by the route). -/
def updateBook (id : Nat) (body : Body) (s : Store) : Option (Store × UpdateResult) :=
  match s.books.find? (fun b => b._id == id) with
  | none => some (s, ⟨true, 0, 0⟩)
  | some b =>
    match buildSet (getField body "genre") (getField body "available")
        (getField body "publicationYear") (getField body "title")
        (getField body "author") b with
    | none => none
    | some b' =>
      some ({ s with books := replaceFirst id b' s.books },
            ⟨true, 1, if b' = b then 0 else 1⟩)

/-- The PUT /books/:id route: 200 with the raw acknowledgment on success,
500 on a datastore error. -/
def putBooks (id : Nat) (body : Body) (s : Store) : Nat × Store × Option UpdateResult :=
  match updateBook id body s with
  | some (s', r) => (200, s', some r)
  | none => (500, s, none)

/-- The datastore acknowledgment of a delete operation. -/
structure DeleteResult where
  acknowledged : Bool
  deletedCount : Nat
deriving DecidableEq, Repr

/-- The DELETE /books/:id route body: `Book.deleteOne({ _id: id })` removes
the first matching document; a missing id acknowledges with count 0. -/
def deleteBook (id : Nat) (s : Store) : Store × DeleteResult :=
  if s.books.any (fun b => b._id == id) then
    ({ s with books := s.books.eraseP (fun b => b._id == id) }, ⟨true, 1⟩)
  else (s, ⟨true, 0⟩)

/-- The `$set: { available: true }` of the backfill, per document. -/
def fixBook (b : Book) : Book :=
  if b.available.isNone then { b with available := some true } else b

/-- The POST /books/fix-availability route body:
`Book.updateMany({available: {$exists: false}}, {$set: {available: true}})`;
matched and modified counts are the number of documents lacking the field. -/
def fixAvailability (s : Store) : Store × UpdateResult :=
  let matched := (s.books.filter (fun b => b.available.isNone)).length
  ({ s with books := s.books.map fixBook }, ⟨true, matched, matched⟩)

/-- JavaScript `parseInt` on a decimal path segment: skip leading
whitespace, read an optional sign and then a maximal run of digits; no
digits means `NaN` (`none`). -/
def jsParseInt (s : String) : Option Int :=
  let t := s.data.dropWhile Char.isWhitespace
  let signRest : Int × List Char :=
    match t with
    | '-' :: cs => (-1, cs)
    | '+' :: cs => (1, cs)
    | cs => (1, cs)
  let digits := signRest.2.takeWhile Char.isDigit
  if digits.isEmpty then none
  else some (signRest.1 * digitsToNat digits)

/-- The GET /books/before/:year route body:
`Book.find({ publicationYear: { $lt: parseInt(year) } })`.  When `parseInt`
yields `NaN` the numeric `$lt NaN` filter matches no document. -/
def booksBefore (yearSeg : String) (s : Store) : List Book :=
  match jsParseInt yearSeg with
  | some y => s.books.filter (fun b => decide (b.publicationYear < y))
  | none => []

/-- The value the `available` field holds after the PUT handler's `$set`:
overwritten exactly when the supplied value has type boolean. -/
def availSet (v : JsValue) (old : Option Bool) : Option Bool :=
  match v with
  | .bool x => some x
  | _ => old

/-! Helper lemmas about the conditional `$set` entries. -/

/-- A truthy value always casts to a schema `String` path. -/
theorem castString_of_truthy {v : JsValue} (h : truthy v = true) :
    ∃ s, castString v = some s := by
  cases v <;> simp_all [truthy, castString]

/-- Unfolding a successful `setGenre`. -/
theorem setGenre_eq_some {v : JsValue} {b b' : Book} (h : setGenre v b = some b') :
    (∃ g, truthy v = true ∧ castString v = some g ∧ b' = { b with genre := g }) ∨
      (truthy v = false ∧ b' = b) := by
  cases hv : truthy v
  · simp [setGenre, hv] at h
    exact Or.inr ⟨rfl, h.symm⟩
  · simp only [setGenre, hv, if_true] at h
    rcases Option.map_eq_some'.1 h with ⟨g, hg, rfl⟩
    exact Or.inl ⟨g, rfl, hg, rfl⟩

/-- Unfolding a successful `setTitle`. -/
theorem setTitle_eq_some {v : JsValue} {b b' : Book} (h : setTitle v b = some b') :
    (∃ t, truthy v = true ∧ castString v = some t ∧ b' = { b with title := t }) ∨
      (truthy v = false ∧ b' = b) := by
  cases hv : truthy v
  · simp [setTitle, hv] at h
    exact Or.inr ⟨rfl, h.symm⟩
  · simp only [setTitle, hv, if_true] at h
    rcases Option.map_eq_some'.1 h with ⟨t, ht, rfl⟩
    exact Or.inl ⟨t, rfl, ht, rfl⟩

/-- Unfolding a successful `setAuthor`. -/
theorem setAuthor_eq_some {v : JsValue} {b b' : Book} (h : setAuthor v b = some b') :
    (∃ a, truthy v = true ∧ castString v = some a ∧ b' = { b with author := a }) ∨
      (truthy v = false ∧ b' = b) := by
  cases hv : truthy v
  · simp [setAuthor, hv] at h
    exact Or.inr ⟨rfl, h.symm⟩
  · simp only [setAuthor, hv, if_true] at h
    rcases Option.map_eq_some'.1 h with ⟨a, ha, rfl⟩
    exact Or.inl ⟨a, rfl, ha, rfl⟩

/-- Unfolding a successful `setPublicationYear`. -/
theorem setPublicationYear_eq_some {v : JsValue} {b b' : Book}
    (h : setPublicationYear v b = some b') :
    (∃ y, truthy v = true ∧ castNumber v = some y ∧ b' = { b with publicationYear := y }) ∨
      (truthy v = false ∧ b' = b) := by
  cases hv : truthy v
  · simp [setPublicationYear, hv] at h
    exact Or.inr ⟨rfl, h.symm⟩
  · simp only [setPublicationYear, hv, if_true] at h
    rcases Option.map_eq_some'.1 h with ⟨y, hy, rfl⟩
    exact Or.inl ⟨y, rfl, hy, rfl⟩

/-- Field-level reading of a successful `$set` application: each of the four
truthiness-guarded fields is overwritten with the cast of the supplied value
exactly when that value is truthy, and `available` is overwritten exactly
when the supplied value has type boolean. -/
theorem buildSet_eq_some {g av py t a : JsValue} {b b' : Book}
    (h : buildSet g av py t a b = some b') :
    ((truthy g = true ∧ castString g = some b'.genre) ∨
      (truthy g = false ∧ b'.genre = b.genre)) ∧
    (b'.available = availSet av b.available) ∧
    ((truthy py = true ∧ castNumber py = some b'.publicationYear) ∨
      (truthy py = false ∧ b'.publicationYear = b.publicationYear)) ∧
    ((truthy t = true ∧ castString t = some b'.title) ∨
      (truthy t = false ∧ b'.title = b.title)) ∧
    ((truthy a = true ∧ castString a = some b'.author) ∨
      (truthy a = false ∧ b'.author = b.author)) := by
  unfold buildSet at h
  rcases Option.bind_eq_some.1 h with ⟨b4, hX, hA⟩
  rcases Option.bind_eq_some.1 hX with ⟨b3, hY, hT⟩
  rcases Option.bind_eq_some.1 hY with ⟨b2, hZ, hPy⟩
  rcases Option.map_eq_some'.1 hZ with ⟨b1, hG, hAv⟩
  subst hAv
  rcases setGenre_eq_some hG with ⟨g', hg, hcg, rfl⟩ | ⟨hg, rfl⟩ <;>
    rcases setPublicationYear_eq_some hPy with ⟨y', hy, hcy, rfl⟩ | ⟨hy, rfl⟩ <;>
    rcases setTitle_eq_some hT with ⟨t', ht, hct, rfl⟩ | ⟨ht, rfl⟩ <;>
    rcases setAuthor_eq_some hA with ⟨a', ha, hca, rfl⟩ | ⟨ha, rfl⟩ <;>
    cases av <;>
    simp_all [setAvailable, availSet]

/-- C1: For every PUT /books/:id request that matches a stored record, each
body field among title, author, genre, publicationYear overwrites the stored
value (with its schema cast) exactly when the supplied value is truthy,
while `available` overwrites the stored value exactly when the supplied
value has type boolean — in particular `available: false` is applied. -/
theorem put_truthy_merge (id : Nat) (body : Body) (s s' : Store)
    (r : UpdateResult) (b : Book)
    (hb : s.books.find? (fun x => x._id == id) = some b)
    (h : updateBook id body s = some (s', r)) :
    ∃ b', s'.books = replaceFirst id b' s.books ∧
      ((truthy (getField body "genre") = true ∧
          castString (getField body "genre") = some b'.genre) ∨
        (truthy (getField body "genre") = false ∧ b'.genre = b.genre)) ∧
      (b'.available = availSet (getField body "available") b.available) ∧
      ((truthy (getField body "publicationYear") = true ∧
          castNumber (getField body "publicationYear") = some b'.publicationYear) ∨
        (truthy (getField body "publicationYear") = false ∧
          b'.publicationYear = b.publicationYear)) ∧
      ((truthy (getField body "title") = true ∧
          castString (getField body "title") = some b'.title) ∨
        (truthy (getField body "title") = false ∧ b'.title = b.title)) ∧
      ((truthy (getField body "author") = true ∧
          castString (getField body "author") = some b'.author) ∨
        (truthy (getField body "author") = false ∧ b'.author = b.author)) := by
  simp only [updateBook, hb] at h
  cases hbs : buildSet (getField body "genre") (getField body "available")
      (getField body "publicationYear") (getField body "title")
      (getField body "author") b with
  | none => rw [hbs] at h; exact absurd h (by simp)
  | some bNew =>
    rw [hbs, Option.some.injEq, Prod.mk.injEq] at h
    obtain ⟨hs, hr⟩ := h
    subst hs
    exact ⟨bNew, rfl, buildSet_eq_some hbs⟩

/-- A concrete PUT request body: truthy title, falsy author and
publicationYear, absent genre, `available: false`. -/
def c1Body : Body :=
  [("title", .str "New"), ("author", .str ""), ("publicationYear", .num 0),
   ("available", .bool false)]

/-- A concrete stored document. -/
def c1Book : Book := ⟨0, "Old", "OldAuthor", "OldGenre", 1950, some true⟩

/-- A concrete one-document store. -/
def c1Store : Store := ⟨[c1Book], 1⟩

/-- The store after the concrete PUT: title overwritten, author and
publicationYear kept, `available: false` applied. -/
def c1Store' : Store := ⟨[⟨0, "New", "OldAuthor", "OldGenre", 1950, some false⟩], 1⟩

/-- Witness for `put_truthy_merge` at a concrete request. -/
theorem put_truthy_merge_witness :
    c1Store.books.find? (fun x => x._id == 0) = some c1Book ∧
    updateBook 0 c1Body c1Store = some (c1Store', ⟨true, 1, 1⟩) ∧
    ∃ b', c1Store'.books = replaceFirst 0 b' c1Store.books ∧
      ((truthy (getField c1Body "genre") = true ∧
          castString (getField c1Body "genre") = some b'.genre) ∨
        (truthy (getField c1Body "genre") = false ∧ b'.genre = c1Book.genre)) ∧
      (b'.available = availSet (getField c1Body "available") c1Book.available) ∧
      ((truthy (getField c1Body "publicationYear") = true ∧
          castNumber (getField c1Body "publicationYear") = some b'.publicationYear) ∨
        (truthy (getField c1Body "publicationYear") = false ∧
          b'.publicationYear = c1Book.publicationYear)) ∧
      ((truthy (getField c1Body "title") = true ∧
          castString (getField c1Body "title") = some b'.title) ∨
        (truthy (getField c1Body "title") = false ∧ b'.title = c1Book.title)) ∧
      ((truthy (getField c1Body "author") = true ∧
          castString (getField c1Body "author") = some b'.author) ∨
        (truthy (getField c1Body "author") = false ∧ b'.author = c1Book.author)) :=
  ⟨by decide, by decide,
    put_truthy_merge 0 c1Body c1Store c1Store' ⟨true, 1, 1⟩ c1Book (by decide) (by decide)⟩

/-- Replacing the first match of a search with the found element itself is a
no-op. -/
theorem replaceFirst_find?_self {id : Nat} {l : List Book} {b : Book}
    (h : l.find? (fun x => x._id == id) = some b) : replaceFirst id b l = l := by
  induction l with
  | nil => simp at h
  | cons x xs ih =>
    cases hx : (x._id == id)
    · have h' : xs.find? (fun y => y._id == id) = some b := by
        simpa [List.find?_cons, hx] using h
      simp [replaceFirst, hx, ih h']
    · obtain rfl : x = b := by simpa [List.find?_cons, hx] using h
      simp [replaceFirst, hx]

/-- C8: A PUT /books/:id request that supplies only a truthy `genre` and
matches a stored record rewrites exactly that record's genre (to the
trimmed supplied value) and leaves its title, author, publicationYear and
available fields, and every other record, unchanged. -/
theorem put_only_genre (id : Nat) (body : Body) (s : Store) (b : Book) (g : String)
    (hb : s.books.find? (fun x => x._id == id) = some b)
    (hg : getField body "genre" = .str g) (hne : g ≠ "")
    (hav : getField body "available" = .undefined)
    (hpy : getField body "publicationYear" = .undefined)
    (ht : getField body "title" = .undefined)
    (ha : getField body "author" = .undefined) :
    updateBook id body s =
      some ({ s with books := replaceFirst id { b with genre := jsTrim g } s.books },
        ⟨true, 1, if { b with genre := jsTrim g } = b then 0 else 1⟩) := by
  have hbs : buildSet (.str g) .undefined .undefined .undefined .undefined b
      = some { b with genre := jsTrim g } := by
    simp [buildSet, setGenre, setAvailable, setPublicationYear, setTitle, setAuthor,
      truthy, castString, hne]
  simp only [updateBook, hb, hg, hav, hpy, ht, ha, hbs]

/-- A concrete stored document for the genre-only update. -/
def c8Book : Book := ⟨0, "T", "A", "G", 2000, some true⟩

/-- A concrete one-document store for the genre-only update. -/
def c8Store : Store := ⟨[c8Book], 1⟩

/-- A concrete PUT request body supplying only a genre. -/
def c8Body : Body := [("genre", .str "SciFi")]

/-- Witness for `put_only_genre` at a concrete request. -/
theorem put_only_genre_witness :
    c8Store.books.find? (fun x => x._id == 0) = some c8Book ∧
    getField c8Body "genre" = .str "SciFi" ∧
    updateBook 0 c8Body c8Store =
      some ({ c8Store with
                books := replaceFirst 0 { c8Book with genre := jsTrim "SciFi" } c8Store.books },
        ⟨true, 1, if { c8Book with genre := jsTrim "SciFi" } = c8Book then 0 else 1⟩) :=
  ⟨by decide, by decide,
    put_only_genre 0 c8Body c8Store c8Book "SciFi" (by decide) (by decide) (by decide)
      (by decide) (by decide) (by decide) (by decide)⟩

/-- The projection of a request body onto the five keys the PUT handler
destructures: replacing any body by this projection is invisible to the
handler, so no other key can affect the stored records. -/
def restrictBody (body : Body) : Body :=
  [("genre", getField body "genre"), ("available", getField body "available"),
   ("publicationYear", getField body "publicationYear"),
   ("title", getField body "title"), ("author", getField body "author")]

/-- C10: The PUT handler reads only the five known body fields — any other
key is ignored — and a body none of whose five known fields is acceptable
(all falsy, and `available` not of boolean type) acknowledges without
modifying anything: the store is returned unchanged with modifiedCount 0. -/
theorem put_writes_only_known_fields (id : Nat) (body : Body) (s : Store) :
    updateBook id body s = updateBook id (restrictBody body) s ∧
    (truthy (getField body "genre") = false →
      isBoolean (getField body "available") = false →
      truthy (getField body "publicationYear") = false →
      truthy (getField body "title") = false →
      truthy (getField body "author") = false →
      ∃ r : UpdateResult, updateBook id body s = some (s, r) ∧ r.modifiedCount = 0) := by
  constructor
  · rfl
  · intro hg hav hpy ht ha
    have hA : ∀ b : Book, setAvailable (getField body "available") b = b := by
      intro b
      cases hv : getField body "available" <;> simp_all [setAvailable, isBoolean]
    have hbs : ∀ b : Book, buildSet (getField body "genre") (getField body "available")
        (getField body "publicationYear") (getField body "title")
        (getField body "author") b = some b := by
      intro b
      simp [buildSet, setGenre, setPublicationYear, setTitle, setAuthor,
        hg, hpy, ht, ha, hA b]
    cases hf : s.books.find? (fun b => b._id == id) with
    | none => exact ⟨⟨true, 0, 0⟩, by simp [updateBook, hf], rfl⟩
    | some b =>
      refine ⟨⟨true, 1, 0⟩, ?_, rfl⟩
      simp [updateBook, hf, hbs b, replaceFirst_find?_self hf]

/-- A concrete PUT request body with an unknown key and no acceptable known
field. -/
def c10Body : Body :=
  [("isbn", .str "junk"), ("genre", .num 0), ("available", .str "yes"), ("title", .str "")]

/-- A concrete one-document store for the no-op update. -/
def c10Store : Store := ⟨[⟨3, "T", "A", "G", 1999, some true⟩], 4⟩

/-- Witness for `put_writes_only_known_fields` at a concrete request. -/
theorem put_writes_only_known_fields_witness :
    updateBook 3 c10Body c10Store = updateBook 3 (restrictBody c10Body) c10Store ∧
    ∃ r : UpdateResult, updateBook 3 c10Body c10Store = some (c10Store, r) ∧
      r.modifiedCount = 0 :=
  ⟨(put_writes_only_known_fields 3 c10Body c10Store).1,
    (put_writes_only_known_fields 3 c10Body c10Store).2 (by decide) (by decide) (by decide)
      (by decide) (by decide)⟩

/-- C2: When the year path segment parses as an integer `y`, the before-year
query returns exactly the stored records with publicationYear strictly less
than `y`; a record with publicationYear equal to `y` is excluded. -/
theorem before_year_strict (yearSeg : String) (y : Int) (s : Store)
    (h : jsParseInt yearSeg = some y) :
    booksBefore yearSeg s = s.books.filter (fun b => decide (b.publicationYear < y)) ∧
    ∀ b ∈ s.books, (b ∈ booksBefore yearSeg s ↔ b.publicationYear < y) := by
  refine ⟨by simp [booksBefore, h], ?_⟩
  intro b hb
  simp [booksBefore, h, List.mem_filter, hb]

/-- A concrete store with publication years 1988, 1989 and 1990. -/
def c2Store : Store :=
  ⟨[⟨0, "A", "a", "g", 1988, some true⟩, ⟨1, "B", "b", "g", 1989, some true⟩,
    ⟨2, "C", "c", "g", 1990, some true⟩], 3⟩

/-- Witness for `before_year_strict` with year segment "1989". -/
theorem before_year_strict_witness :
    jsParseInt "1989" = some 1989 ∧
    (booksBefore "1989" c2Store =
        c2Store.books.filter (fun b => decide (b.publicationYear < 1989)) ∧
      ∀ b ∈ c2Store.books, (b ∈ booksBefore "1989" c2Store ↔ b.publicationYear < 1989)) :=
  ⟨by decide, before_year_strict "1989" 1989 c2Store (by decide)⟩

/-- The element a successful `find?` returns satisfies the predicate and is
the first such element of the list. -/
theorem find?_first {α : Type} {p : α → Bool} {l : List α} {a : α}
    (h : l.find? p = some a) :
    p a = true ∧ ∃ l₁ l₂, l = l₁ ++ a :: l₂ ∧ ∀ x ∈ l₁, p x = false := by
  induction l with
  | nil => simp at h
  | cons x xs ih =>
    cases hx : p x
    · have h' : xs.find? p = some a := by simpa [List.find?_cons, hx] using h
      obtain ⟨hp, l₁, l₂, rfl, hl₁⟩ := ih h'
      refine ⟨hp, x :: l₁, l₂, rfl, ?_⟩
      intro z hz
      rcases List.mem_cons.1 hz with rfl | hz
      · exact hx
      · exact hl₁ z hz
    · obtain rfl : x = a := by simpa [List.find?_cons, hx] using h
      exact ⟨hx, [], xs, rfl, by simp⟩

/-- C4: The title lookup responds 404 with a message body exactly when no
stored record bears the requested title; otherwise it responds 200 with the
single first-matching record. -/
theorem title_lookup_spec (t : String) (s : Store) :
    (getBookByTitle t s = (404, TitleResponse.notFoundMsg "Book not found") ↔
      ∀ b ∈ s.books, b.title ≠ t) ∧
    (∀ b : Book, getBookByTitle t s = (200, .found b) →
      b.title = t ∧ ∃ l₁ l₂, s.books = l₁ ++ b :: l₂ ∧ ∀ x ∈ l₁, x.title ≠ t) := by
  constructor
  · constructor
    · intro h b hb
      cases hf : s.books.find? (fun x => x.title == t) with
      | none =>
        have := List.find?_eq_none.1 hf b hb
        simpa using this
      | some b' => simp [getBookByTitle, hf] at h
    · intro h
      have hf : s.books.find? (fun x => x.title == t) = none :=
        List.find?_eq_none.2 (fun x hx => by simp [h x hx])
      simp [getBookByTitle, hf]
  · intro b h
    cases hf : s.books.find? (fun x => x.title == t) with
    | none => simp [getBookByTitle, hf] at h
    | some b' =>
      simp only [getBookByTitle, hf] at h
      obtain rfl : b' = b := by simpa using h
      obtain ⟨hp, l₁, l₂, hl, hl₁⟩ := find?_first hf
      exact ⟨by simpa using hp, l₁, l₂, hl, fun x hx => by simpa using hl₁ x hx⟩

/-- A concrete one-document store for the title lookup. -/
def c4Store : Store := ⟨[⟨0, "Dune", "Herbert", "SciFi", 1965, some true⟩], 1⟩

/-- Witness for `title_lookup_spec` at a concrete store and missing title. -/
theorem title_lookup_spec_witness :
    (getBookByTitle "Nope" c4Store = (404, TitleResponse.notFoundMsg "Book not found") ↔
      ∀ b ∈ c4Store.books, b.title ≠ "Nope") ∧
    (∀ b : Book, getBookByTitle "Nope" c4Store = (200, .found b) →
      b.title = "Nope" ∧ ∃ l₁ l₂, c4Store.books = l₁ ++ b :: l₂ ∧ ∀ x ∈ l₁, x.title ≠ "Nope") :=
  title_lookup_spec "Nope" c4Store

/-- C5: Deleting by an identifier matching no stored record acknowledges
success with deletedCount 0 and leaves the store unchanged. -/
theorem delete_missing_id (id : Nat) (s : Store)
    (h : ∀ b ∈ s.books, b._id ≠ id) :
    deleteBook id s = (s, ⟨true, 0⟩) := by
  have hany : s.books.any (fun b => b._id == id) = false :=
    List.any_eq_false.2 (fun x hx => by simp [h x hx])
  simp [deleteBook, hany]

/-- A concrete one-document store for the missing-id delete. -/
def c5Store : Store := ⟨[⟨0, "Dune", "Herbert", "SciFi", 1965, some true⟩], 1⟩

/-- Witness for `delete_missing_id` at a concrete store. -/
theorem delete_missing_id_witness :
    (∀ b ∈ c5Store.books, b._id ≠ 42) ∧
    deleteBook 42 c5Store = (c5Store, ⟨true, 0⟩) :=
  ⟨by decide, delete_missing_id 42 c5Store (by decide)⟩

/-- C6: A create request missing any of the required fields title, author,
genre, publicationYear is rejected by the datastore's required-field
validation and answered with HTTP 500 (not 400); no record is persisted. -/
theorem create_missing_required_is_500 (body : Body) (s : Store)
    (h : getField body "title" = .undefined ∨ getField body "author" = .undefined ∨
      getField body "genre" = .undefined ∨ getField body "publicationYear" = .undefined) :
    postBooks body s = (500, s, .serverError "Error adding book") ∧ (500 : Nat) ≠ 400 := by
  have hnone : createBook body s = none := by
    rcases h with h | h | h | h <;>
      cases h1 : castString (getField body "title") <;>
      cases h2 : castString (getField body "author") <;>
      cases h3 : castString (getField body "genre") <;>
      cases h4 : castNumber (getField body "publicationYear") <;>
      simp_all [createBook, castString, castNumber]
  exact ⟨by simp [postBooks, hnone], by decide⟩

/-- A concrete create request body missing the required title. -/
def c6Body : Body :=
  [("author", .str "Somebody"), ("genre", .str "Drama"), ("publicationYear", .num 2001)]

/-- Witness for `create_missing_required_is_500` at a concrete body. -/
theorem create_missing_required_is_500_witness :
    (getField c6Body "title" = .undefined ∨ getField c6Body "author" = .undefined ∨
      getField c6Body "genre" = .undefined ∨ getField c6Body "publicationYear" = .undefined) ∧
    postBooks c6Body ⟨[], 0⟩ = (500, ⟨[], 0⟩, .serverError "Error adding book") ∧
      (500 : Nat) ≠ 400 :=
  ⟨Or.inl (by decide), create_missing_required_is_500 c6Body ⟨[], 0⟩ (Or.inl (by decide))⟩

/-- C7: A create request that supplies all required fields and omits
`available` persists the record with `available = true` (the schema
default), appended to the collection with the generated id. -/
theorem create_defaults_available (body : Body) (s : Store) (t a g : String) (y : Int)
    (ht : getField body "title" = .str t) (ht' : jsTrim t ≠ "")
    (ha : getField body "author" = .str a) (ha' : jsTrim a ≠ "")
    (hg : getField body "genre" = .str g) (hg' : jsTrim g ≠ "")
    (hy : getField body "publicationYear" = .num y)
    (hav : getField body "available" = .undefined) :
    createBook body s =
      some ({ books := s.books ++ [⟨s.nextId, jsTrim t, jsTrim a, jsTrim g, y, some true⟩],
              nextId := s.nextId + 1 },
        ⟨s.nextId, jsTrim t, jsTrim a, jsTrim g, y, some true⟩) := by
  simp [createBook, ht, ha, hg, hy, hav, castString, castNumber, ht', ha', hg']

/-- A concrete create request body omitting `available`. -/
def c7Body : Body :=
  [("title", .str "1984"), ("author", .str "George Orwell"), ("genre", .str "Fiction"),
   ("publicationYear", .num 1949)]

/-- Witness for `create_defaults_available` at a concrete body. -/
theorem create_defaults_available_witness :
    getField c7Body "available" = .undefined ∧
    createBook c7Body ⟨[], 0⟩ =
      some ({ books := [] ++ [⟨0, jsTrim "1984", jsTrim "George Orwell", jsTrim "Fiction",
                1949, some true⟩],
              nextId := 0 + 1 },
        ⟨0, jsTrim "1984", jsTrim "George Orwell", jsTrim "Fiction", 1949, some true⟩) :=
  ⟨by decide,
    create_defaults_available c7Body ⟨[], 0⟩ "1984" "George Orwell" "Fiction" 1949
      (by decide) (by decide) (by decide) (by decide) (by decide) (by decide)
      (by decide) (by decide)⟩

/-- C3: The backfill matches exactly the records lacking the `available`
field and sets it to true on them (touching nothing else); afterwards every
record has the field, and an immediate second run matches zero records and
changes nothing. -/
theorem fix_availability_idempotent (s : Store) :
    (fixAvailability s).2.matchedCount =
        (s.books.filter (fun b => b.available.isNone)).length ∧
    (fixAvailability s).1.books = s.books.map fixBook ∧
    (∀ b' ∈ (fixAvailability s).1.books, b'.available.isSome = true) ∧
    fixAvailability (fixAvailability s).1 = ((fixAvailability s).1, ⟨true, 0, 0⟩) := by
  have hnone : ∀ b : Book, (fixBook b).available.isNone = false := by
    intro b; cases h : b.available <;> simp [fixBook, h]
  have hfix : ∀ b : Book, fixBook (fixBook b) = fixBook b := by
    intro b; cases h : b.available <;> simp [fixBook, h]
  refine ⟨rfl, rfl, ?_, ?_⟩
  · intro b' hb'
    obtain ⟨b, _, rfl⟩ := List.mem_map.1 hb'
    cases h : b.available <;> simp [fixBook, h]
  · have h1 : ((s.books.map fixBook).filter (fun b => b.available.isNone)).length = 0 := by
      rw [List.length_eq_zero, List.filter_eq_nil_iff]
      intro x hx
      obtain ⟨b, _, rfl⟩ := List.mem_map.1 hx
      simp [hnone b]
    have h2 : (s.books.map fixBook).map fixBook = s.books.map fixBook := by
      rw [List.map_map]
      exact List.map_congr_left (fun b _ => hfix b)
    simp [fixAvailability, h1, h2]

/-- A concrete store with one legacy record lacking `available`. -/
def c3Store : Store :=
  ⟨[⟨0, "T", "A", "G", 2000, none⟩, ⟨1, "U", "B", "H", 2001, some false⟩], 2⟩

/-- Witness for `fix_availability_idempotent` at a concrete store. -/
theorem fix_availability_idempotent_witness :
    (fixAvailability c3Store).2.matchedCount =
        (c3Store.books.filter (fun b => b.available.isNone)).length ∧
    (fixAvailability c3Store).1.books = c3Store.books.map fixBook ∧
    (∀ b' ∈ (fixAvailability c3Store).1.books, b'.available.isSome = true) ∧
    fixAvailability (fixAvailability c3Store).1 = ((fixAvailability c3Store).1, ⟨true, 0, 0⟩) :=
  fix_availability_idempotent c3Store

/-- C9 counterexample: when another stored record already bears the same
title, creating a book and fetching by that title returns the OLD record
(findOne returns the first match in natural order), whose field values do
not match those stored at creation. -/
theorem create_then_fetch_counterexample :
    createBook
        [("title", JsValue.str "X"), ("author", JsValue.str "NewAuthor"),
         ("genre", JsValue.str "G"), ("publicationYear", JsValue.num 2000)]
        ⟨[⟨0, "X", "OldAuthor", "G", 1900, some true⟩], 1⟩ =
      some (⟨[⟨0, "X", "OldAuthor", "G", 1900, some true⟩,
              ⟨1, "X", "NewAuthor", "G", 2000, some true⟩], 2⟩,
        ⟨1, "X", "NewAuthor", "G", 2000, some true⟩) ∧
    getBookByTitle "X"
        ⟨[⟨0, "X", "OldAuthor", "G", 1900, some true⟩,
          ⟨1, "X", "NewAuthor", "G", 2000, some true⟩], 2⟩ =
      (200, .found ⟨0, "X", "OldAuthor", "G", 1900, some true⟩) ∧
    ("OldAuthor" : String) ≠ "NewAuthor" := by
  refine ⟨by decide, by decide, by decide⟩

/-- Shape of a successful create: the new record is appended to the
collection and carries the generated id. -/
theorem createBook_shape {body : Body} {s s' : Store} {b : Book}
    (h : createBook body s = some (s', b)) :
    s' = { books := s.books ++ [b], nextId := s.nextId + 1 } ∧ b._id = s.nextId := by
  unfold createBook at h
  rcases Option.bind_eq_some.1 h with ⟨t, _, h⟩
  rcases Option.bind_eq_some.1 h with ⟨a, _, h⟩
  rcases Option.bind_eq_some.1 h with ⟨g, _, h⟩
  rcases Option.bind_eq_some.1 h with ⟨y, _, h⟩
  split at h
  · simp at h
  · rcases Option.bind_eq_some.1 h with ⟨av, _, h⟩
    rw [Option.some.injEq, Prod.mk.injEq] at h
    obtain ⟨h1, h2⟩ := h
    subst h2
    exact ⟨h1.symm, rfl⟩

/-- C9 (amended): creating a book whose (stored) title is borne by no
previously-stored record and then fetching by that title returns exactly the
created record — matching title, author, genre, publicationYear and
available values — carrying the generated id. -/
theorem create_then_fetch_fresh (body : Body) (s s' : Store) (b : Book)
    (hc : createBook body s = some (s', b))
    (hfresh : ∀ x ∈ s.books, x.title ≠ b.title) :
    getBookByTitle b.title s' = (200, .found b) ∧ b._id = s.nextId := by
  obtain ⟨hs', hid⟩ := createBook_shape hc
  subst hs'
  refine ⟨?_, hid⟩
  have h1 : s.books.find? (fun x => x.title == b.title) = none :=
    List.find?_eq_none.2 (fun x hx => by simp [hfresh x hx])
  simp [getBookByTitle, List.find?_append, h1]

/-- A concrete create request body for the fresh-title round trip. -/
def c9Body : Body :=
  [("title", JsValue.str "Emma"), ("author", JsValue.str "Jane Austen"),
   ("genre", JsValue.str "Fiction"), ("publicationYear", JsValue.num 1815)]

/-- The record the concrete create stores. -/
def c9Book : Book := ⟨5, "Emma", "Jane Austen", "Fiction", 1815, some true⟩

/-- Witness for `create_then_fetch_fresh` against an empty store. -/
theorem create_then_fetch_fresh_witness :
    createBook c9Body ⟨[], 5⟩ = some (⟨[c9Book], 6⟩, c9Book) ∧
    (∀ x ∈ (⟨[], 5⟩ : Store).books, x.title ≠ c9Book.title) ∧
    (getBookByTitle c9Book.title ⟨[c9Book], 6⟩ = (200, .found c9Book) ∧
      c9Book._id = (⟨[], 5⟩ : Store).nextId) :=
  ⟨by decide, by decide,
    create_then_fetch_fresh c9Body ⟨[], 5⟩ ⟨[c9Book], 6⟩ c9Book (by decide) (by decide)⟩
